import Mathlib

/-!
Shallow embedding of the PBR renderer core: the GLSL fragment-shader
functions (Cook-Torrance BRDF, multi-light accumulation, IBL ambient
term), the scene-object material construction, the uniform manager,
the orbit camera, and the per-frame uniform-binding trace of the
renderer, together with theorems settling the specification claims.

GLSL floats are modelled as rationals.  The transcendental builtins
(sqrt, cos, radians, pow) have no exact rational counterpart, so they
are passed explicitly as a structure of function parameters
(`GLSLPrims`); every definition stays executable and the theorems
quantify over all implementations of those builtins.
-/

namespace PBR

/-- A 3-component vector of rationals, modelling GLSL vec3 and gl-matrix vec3. -/
@[ext] structure Vec3 where
  x : ℚ
  y : ℚ
  z : ℚ
deriving DecidableEq, Repr

instance : Zero Vec3 := ⟨⟨0, 0, 0⟩⟩
instance : Add Vec3 := ⟨fun a b => ⟨a.x + b.x, a.y + b.y, a.z + b.z⟩⟩
instance : Sub Vec3 := ⟨fun a b => ⟨a.x - b.x, a.y - b.y, a.z - b.z⟩⟩
instance : Neg Vec3 := ⟨fun a => ⟨-a.x, -a.y, -a.z⟩⟩
instance : Mul Vec3 := ⟨fun a b => ⟨a.x * b.x, a.y * b.y, a.z * b.z⟩⟩

@[simp] theorem Vec3.zero_x : (0 : Vec3).x = 0 := rfl
@[simp] theorem Vec3.zero_y : (0 : Vec3).y = 0 := rfl
@[simp] theorem Vec3.zero_z : (0 : Vec3).z = 0 := rfl
@[simp] theorem Vec3.add_x (a b : Vec3) : (a + b).x = a.x + b.x := rfl
@[simp] theorem Vec3.add_y (a b : Vec3) : (a + b).y = a.y + b.y := rfl
@[simp] theorem Vec3.add_z (a b : Vec3) : (a + b).z = a.z + b.z := rfl
@[simp] theorem Vec3.sub_x (a b : Vec3) : (a - b).x = a.x - b.x := rfl
@[simp] theorem Vec3.sub_y (a b : Vec3) : (a - b).y = a.y - b.y := rfl
@[simp] theorem Vec3.sub_z (a b : Vec3) : (a - b).z = a.z - b.z := rfl
@[simp] theorem Vec3.neg_x (a : Vec3) : (-a).x = -a.x := rfl
@[simp] theorem Vec3.neg_y (a : Vec3) : (-a).y = -a.y := rfl
@[simp] theorem Vec3.neg_z (a : Vec3) : (-a).z = -a.z := rfl
@[simp] theorem Vec3.mul_x (a b : Vec3) : (a * b).x = a.x * b.x := rfl
@[simp] theorem Vec3.mul_y (a b : Vec3) : (a * b).y = a.y * b.y := rfl
@[simp] theorem Vec3.mul_z (a b : Vec3) : (a * b).z = a.z * b.z := rfl

instance : AddCommMonoid Vec3 where
  add_assoc a b c := by ext <;> simp [add_assoc]
  zero_add a := by ext <;> simp
  add_zero a := by ext <;> simp
  add_comm a b := by ext <;> simp [add_comm]
  nsmul := nsmulRec

/-- GLSL vec3(s) constructor: all three components equal. -/
def v3 (s : ℚ) : Vec3 := ⟨s, s, s⟩

@[simp] theorem v3_x (s : ℚ) : (v3 s).x = s := rfl
@[simp] theorem v3_y (s : ℚ) : (v3 s).y = s := rfl
@[simp] theorem v3_z (s : ℚ) : (v3 s).z = s := rfl

/-- Scalar-times-vector, as in GLSL float * vec3. -/
def smulV (s : ℚ) (v : Vec3) : Vec3 := ⟨s * v.x, s * v.y, s * v.z⟩

@[simp] theorem smulV_x (s : ℚ) (v : Vec3) : (smulV s v).x = s * v.x := rfl
@[simp] theorem smulV_y (s : ℚ) (v : Vec3) : (smulV s v).y = s * v.y := rfl
@[simp] theorem smulV_z (s : ℚ) (v : Vec3) : (smulV s v).z = s * v.z := rfl

/-- GLSL dot product for vec3. -/
def dotV (a b : Vec3) : ℚ := a.x * b.x + a.y * b.y + a.z * b.z

/-- GLSL clamp(x, lo, hi) = min(max(x, lo), hi). -/
def clampQ (x lo hi : ℚ) : ℚ := min (max x lo) hi

/-- GLSL smoothstep(edge0, edge1, x): Hermite interpolation of the
clamped normalized parameter. -/
def smoothstepQ (edge0 edge1 x : ℚ) : ℚ :=
  let t := clampQ ((x - edge0) / (edge1 - edge0)) 0 1
  t * t * (3 - 2 * t)

/-- GLSL mix(a, b, t) for scalars. -/
def mixQ (a b t : ℚ) : ℚ := a * (1 - t) + b * t

/-- GLSL mix(a, b, t) for vec3, componentwise. -/
def mixV (a b : Vec3) (t : ℚ) : Vec3 := smulV (1 - t) a + smulV t b

/-- GLSL max for vec3, componentwise. -/
def maxV (a b : Vec3) : Vec3 := ⟨max a.x b.x, max a.y b.y, max a.z b.z⟩

/-- GLSL componentwise division for vec3. -/
def divV (a b : Vec3) : Vec3 := ⟨a.x / b.x, a.y / b.y, a.z / b.z⟩

/-- The transcendental GLSL builtins used by the fragment shader, passed
as explicit parameters: any floating-point implementation of the shader
realizes some choice of these functions. -/
structure GLSLPrims where
  sqrtF : ℚ → ℚ
  cosF : ℚ → ℚ
  radiansF : ℚ → ℚ
  powF : ℚ → ℚ → ℚ

/-- GLSL length(v) = sqrt(dot(v, v)). -/
def lengthV (P : GLSLPrims) (v : Vec3) : ℚ := P.sqrtF (dotV v v)

/-- GLSL normalize(v) = v / length(v). -/
def normalizeV (P : GLSLPrims) (v : Vec3) : Vec3 := smulV (1 / lengthV P v) v

/-- GLSL reflect(I, N) = I - 2 * dot(N, I) * N. -/
def reflectV (I N : Vec3) : Vec3 := I - smulV (2 * dotV N I) N

/-- Componentwise GLSL pow(v, vec3(e)). -/
def vpow (P : GLSLPrims) (v : Vec3) (e : ℚ) : Vec3 :=
  ⟨P.powF v.x e, P.powF v.y e, P.powF v.z e⟩

/-- The shader's PI literal (fragment.glsl line 5). -/
def shaderPI : ℚ := 3.14159265359

/-- Denominator of the GGX normal distribution term,
PI * (NdotH^2 * (a^2 - 1) + 1)^2, as computed in DistributionGGX. -/
def ggxDenom (a2 NdotH2 : ℚ) : ℚ :=
  let d := NdotH2 * (a2 - 1) + 1
  shaderPI * d * d

/-- fragment.glsl DistributionGGX: GGX/Trowbridge-Reitz normal
distribution, a = roughness^2. -/
def DistributionGGX (N H : Vec3) (roughness : ℚ) : ℚ :=
  let a := roughness * roughness
  let a2 := a * a
  let NdotH := max (dotV N H) 0
  let NdotH2 := NdotH * NdotH
  a2 / ggxDenom a2 NdotH2

/-- Denominator of the Schlick-GGX geometry term, NdotV * (1 - k) + k. -/
def schlickDenom (NdotV k : ℚ) : ℚ := NdotV * (1 - k) + k

/-- fragment.glsl GeometrySchlickGGX with k = (roughness + 1)^2 / 8. -/
def GeometrySchlickGGX (NdotV roughness : ℚ) : ℚ :=
  let r := roughness + 1
  let k := r * r / 8
  NdotV / schlickDenom NdotV k

/-- fragment.glsl GeometrySmith: product of the Schlick-GGX factors for
the view and light directions. -/
def GeometrySmith (N V L : Vec3) (roughness : ℚ) : ℚ :=
  let NdotV := max (dotV N V) 0
  let NdotL := max (dotV N L) 0
  let ggx2 := GeometrySchlickGGX NdotV roughness
  let ggx1 := GeometrySchlickGGX NdotL roughness
  ggx1 * ggx2

/-- fragment.glsl fresnelSchlick. -/
def fresnelSchlick (P : GLSLPrims) (cosTheta : ℚ) (F0 : Vec3) : Vec3 :=
  F0 + smulV (P.powF (clampQ (1 - cosTheta) 0 1) 5) (v3 1 - F0)

/-- fragment.glsl fresnelSchlickRoughness (Fresnel with roughness for IBL). -/
def fresnelSchlickRoughness (P : GLSLPrims) (cosTheta : ℚ) (F0 : Vec3)
    (roughness : ℚ) : Vec3 :=
  F0 + smulV (P.powF (clampQ (1 - cosTheta) 0 1) 5) (maxV (v3 (1 - roughness)) F0 - F0)

/-- fragment.glsl sampleSky: procedural sky gradient plus sun highlight. -/
def sampleSky (P : GLSLPrims) (direction : Vec3) : Vec3 :=
  let horizon := direction.y
  let skyColor := mixV ⟨0.4, 0.7, 1.0⟩ ⟨1.0, 0.9, 0.7⟩ (P.powF (max 0 (-horizon)) 0.5)
  let sunDir := normalizeV P ⟨0.3, 0.8, 0.2⟩
  let sunDot := max (dotV direction sunDir) 0
  skyColor + smulV (P.powF sunDot 128 * 2) ⟨1.0, 0.8, 0.4⟩

/-- fragment.glsl sampleIrradiance: 3-sample hemisphere approximation. -/
def sampleIrradiance (P : GLSLPrims) (normal : Vec3) : Vec3 :=
  let skyUp := sampleSky P ⟨0, 1, 0⟩
  let skyDown := sampleSky P ⟨0, -1, 0⟩
  let skyForward := sampleSky P normal
  smulV 0.25 (skyUp + skyDown + smulV 2 skyForward)

/-- fragment.glsl sampleRadiance: reflection-direction sky sample faded
by roughness. -/
def sampleRadiance (P : GLSLPrims) (reflectDir : Vec3) (roughness : ℚ) : Vec3 :=
  smulV (1 - roughness * 0.7) (sampleSky P reflectDir)

/-- The diffuse term of calculateLightContribution:
kD * albedo / PI with kD = (1 - F) * (1 - metallic)
(fragment.glsl lines 189-193). -/
def directDiffuse (F : Vec3) (metallic : ℚ) (albedo : Vec3) : Vec3 :=
  smulV (1 / shaderPI) (smulV (1 - metallic) (v3 1 - F) * albedo)

/-- Distance attenuation shared by the Point and Spot branches:
intensity / d^2 scaled by smoothstep(range, range * 0.5, d)
(fragment.glsl lines 156-157 and 161-162). -/
def pointAttenuation (lightIntensity lightRange dist : ℚ) : ℚ :=
  lightIntensity / (dist * dist) * smoothstepQ lightRange (lightRange * 0.5) dist

/-- fragment.glsl calculateLightContribution: per-light direct-lighting
radiance.  Light types: 0 directional, 1 point, 2 spot (for any other
type GLSL leaves L uninitialized; it is modelled as the zero vector,
with attenuation keeping its initial value 1). -/
def calculateLightContribution (P : GLSLPrims) (lightType : ℤ)
    (lightPos lightDir lightColor : Vec3)
    (lightIntensity lightRange innerCone outerCone : ℚ)
    (worldPos N V albedo : Vec3) (metallic roughness : ℚ) (F0 : Vec3) : Vec3 :=
  let LA : Vec3 × ℚ :=
    if lightType = 0 then
      (normalizeV P (-lightDir), 1)
    else if lightType = 1 then
      let dist := lengthV P (lightPos - worldPos)
      (normalizeV P (lightPos - worldPos), pointAttenuation lightIntensity lightRange dist)
    else if lightType = 2 then
      let dist := lengthV P (lightPos - worldPos)
      let spotDir := normalizeV P lightDir
      let cosTheta := dotV (normalizeV P (lightPos - worldPos)) (-spotDir)
      let innerCos := P.cosF (P.radiansF innerCone)
      let outerCos := P.cosF (P.radiansF outerCone)
      (normalizeV P (lightPos - worldPos),
        pointAttenuation lightIntensity lightRange dist * smoothstepQ outerCos innerCos cosTheta)
    else
      (v3 0, 1)
  let L := LA.1
  let attenuation := LA.2
  if attenuation < 0.001 then v3 0 else
  let H := normalizeV P (V + L)
  let NdotV := max (dotV N V) 0
  let NdotL := max (dotV N L) 0
  let HdotV := max (dotV H V) 0
  let D := DistributionGGX N H roughness
  let G := GeometrySmith N V L roughness
  let F := fresnelSchlick P HdotV F0
  let numerator := smulV (D * G) F
  let denominator := 4 * NdotV * NdotL + 0.0001
  let specular := smulV (1 / denominator) numerator
  let diffuse := directDiffuse F metallic albedo
  let radiance := smulV attenuation lightColor
  smulV NdotL ((diffuse + specular) * radiance)

/-- The ambient (image-based lighting) term of the shader main function
(fragment.glsl lines 243-263). -/
def iblAmbient (P : GLSLPrims) (useIBL : Bool) (N V R F0 : Vec3)
    (roughness metallic : ℚ) (albedo : Vec3) (ao iblIntensity : ℚ)
    (ambientColor : Vec3) : Vec3 :=
  if useIBL then
    let irradiance := sampleIrradiance P N
    let diffuse := irradiance * albedo
    let NdotV := max (dotV N V) 0
    let F := fresnelSchlickRoughness P NdotV F0 roughness
    let kS := F
    let kD := smulV (1 - metallic) (v3 1 - kS)
    let prefilteredColor := sampleRadiance P R roughness
    let specular := prefilteredColor * F
    smulV (ao * iblIntensity) (kD * diffuse + specular)
  else
    smulV ao (ambientColor * albedo)

/-- The shader main function's light loop
(for i = 0; i < u_numLights and i < MAX_LIGHTS; i++) accumulating the
per-light contribution into the accumulator Lo. -/
def lightLoop (numLights : ℤ) (contrib : ℕ → Vec3) (i : ℕ) (acc : Vec3) : Vec3 :=
  if (i : ℤ) < numLights ∧ i < 8 then
    lightLoop numLights contrib (i + 1) (acc + contrib i)
  else
    acc
termination_by 8 - i
decreasing_by omega

/-- The fragment shader's uniforms; the GLSL arrays of size MAX_LIGHTS
are modelled as functions from the index. -/
structure FragUniforms where
  cameraPosition : Vec3
  numLights : ℤ
  lightTypes : ℕ → ℤ
  lightPositions : ℕ → Vec3
  lightDirections : ℕ → Vec3
  lightColors : ℕ → Vec3
  lightIntensities : ℕ → ℚ
  lightRanges : ℕ → ℚ
  lightInnerCones : ℕ → ℚ
  lightOuterCones : ℕ → ℚ
  useIBL : Bool
  iblIntensity : ℚ
  ambientColor : Vec3
  albedo : Vec3
  metallic : ℚ
  roughness : ℚ
  ao : ℚ

/-- fragment.glsl main: gamma-decode the albedo, accumulate direct
lighting over the active lights, add the ambient term, Reinhard
tonemap and gamma-encode. -/
def shaderMain (P : GLSLPrims) (u : FragUniforms) (v_worldPosition v_normal : Vec3) : Vec3 :=
  let albedo := vpow P u.albedo 2.2
  let N := normalizeV P v_normal
  let V := normalizeV P (u.cameraPosition - v_worldPosition)
  let R := reflectV (-V) N
  let F0 := mixV (v3 0.04) albedo u.metallic
  let Lo := lightLoop u.numLights (fun i =>
    calculateLightContribution P (u.lightTypes i) (u.lightPositions i)
      (u.lightDirections i) (u.lightColors i) (u.lightIntensities i)
      (u.lightRanges i) (u.lightInnerCones i) (u.lightOuterCones i)
      v_worldPosition N V albedo u.metallic u.roughness F0) 0 (v3 0)
  let ambient := iblAmbient P u.useIBL N V R F0 u.roughness u.metallic albedo
    u.ao u.iblIntensity u.ambientColor
  let color := ambient + Lo
  let color1 := divV color (color + v3 1)
  vpow P color1 (1 / 2.2)

/-! ### Scene objects (scene-object.js)

JavaScript arrays are heap objects: a `Store` of rational arrays models
the heap, and an array-valued field holds an address into it.  The
SceneObject constructor's falsy-or defaulting (`material.roughness || 0.5`)
is modelled by `jsNumOr` for numbers (a JS number is falsy exactly when
it is 0 or NaN; NaN has no rational counterpart, and `none` models an
absent field) and by an `Option` address for the albedo array (any array
is truthy, so a present array is stored by reference, never copied). -/

/-- JS `v || d` for a numeric field: the default when the field is
absent or zero, the field's value otherwise. -/
def jsNumOr (v : Option ℚ) (d : ℚ) : ℚ :=
  match v with
  | some q => if q = 0 then d else q
  | none => d

/-- The mutable JS heap of numeric arrays; addresses are list indices. -/
structure Store where
  arrays : List (List ℚ)
deriving DecidableEq, Repr

/-- Read component `i` of the array at address `addr` (0 when out of range). -/
def Store.read (s : Store) (addr i : ℕ) : ℚ :=
  (s.arrays.getD addr []).getD i 0

/-- Write component `i` of the array at address `addr`. -/
def Store.write (s : Store) (addr i : ℕ) (q : ℚ) : Store :=
  ⟨s.arrays.set addr ((s.arrays.getD addr []).set i q)⟩

/-- Allocate a fresh array, returning the new heap and its address. -/
def Store.alloc (s : Store) (v : List ℚ) : Store × ℕ :=
  (⟨s.arrays ++ [v]⟩, s.arrays.length)

/-- The material record passed to the SceneObject constructor; the
albedo field, when present, is a reference to a heap array. -/
structure MaterialRecord where
  albedo : Option ℕ
  metallic : Option ℚ
  roughness : Option ℚ
  ao : Option ℚ
deriving DecidableEq, Repr

/-- The material stored on a constructed SceneObject: an albedo array
reference plus scalar fields. -/
structure MaterialValue where
  albedo : ℕ
  metallic : ℚ
  roughness : ℚ
  ao : ℚ
deriving DecidableEq, Repr

/-- scene-object.js SceneObject constructor, material part (lines 9-14):
each scalar field is defaulted with `||` and stored by value; the albedo
field is defaulted with `||`, so a present array is stored by reference
and only the default `[0.7, 0.7, 0.7]` is a fresh allocation. -/
def sceneObjectMaterial (s : Store) (m : MaterialRecord) : Store × MaterialValue :=
  match m.albedo with
  | some a =>
    (s, ⟨a, jsNumOr m.metallic 0, jsNumOr m.roughness 0.5, jsNumOr m.ao 1⟩)
  | none =>
    let r := s.alloc [0.7, 0.7, 0.7]
    (r.1, ⟨r.2, jsNumOr m.metallic 0, jsNumOr m.roughness 0.5, jsNumOr m.ao 1⟩)

/-! ### Uniform manager (webgl-utils.js) -/

/-- The WebGL uniform types dispatched on by UniformManager.setUniform;
`other` stands for any type outside the switch, whose case only warns. -/
inductive GLType where
  | float | vec2 | vec3 | vec4 | mat3 | mat4 | int | sampler2D | samplerCube | bool | other
deriving DecidableEq, Repr

/-- One entry of the uniform cache built by UniformManager.cacheUniforms:
the GPU location and the declared type of an active uniform. -/
structure UniformEntry where
  location : ℕ
  type : GLType
deriving DecidableEq, Repr

/-- Map.get on the cached name-to-entry table. -/
def lookupUniform (um : List (String × UniformEntry)) (name : String) :
    Option UniformEntry :=
  (um.find? (fun p => p.1 == name)).map (fun p => p.2)

/-- webgl-utils.js UniformManager.setUniform: the GPU-side uniform store
is a map from location to bound value (a flat list of floats).  An
unknown name warns and returns without touching the store; a known name
dispatches on the cached type and binds the value (the per-type value
marshalling is abstracted to storing the flat value; a type outside the
switch only warns).  The returned Bool is true when a warning was
emitted. -/
def setUniform (um : List (String × UniformEntry)) (store : ℕ → List ℚ)
    (name : String) (values : List ℚ) : (ℕ → List ℚ) × Bool :=
  match lookupUniform um name with
  | none => (store, true)
  | some e =>
    match e.type with
    | GLType.other => (store, true)
    | _ => (fun l => if l = e.location then values else store l, false)

/-! ### Orbit camera (camera.js)

`Math.cos`, `Math.sin` and gl-matrix's `mat4.lookAt` are external
library functions, passed as parameters; the camera state is pure. -/

/-- The orbit camera's state, polymorphic in the matrix type produced by
the external lookAt function. -/
structure CameraState (M : Type) where
  radius : ℚ
  azimuth : ℚ
  elevation : ℚ
  target : Vec3
  up : Vec3
  position : Vec3
  minRadius : ℚ
  maxRadius : ℚ
  viewMatrix : M

/-- camera.js updateViewMatrix: derive the position from the spherical
orbit state, add the target, and recompute the view matrix with lookAt. -/
def updateViewMatrix {M : Type} (cosF sinF : ℚ → ℚ)
    (lookAt : Vec3 → Vec3 → Vec3 → M) (c : CameraState M) : CameraState M :=
  let x := c.radius * cosF c.elevation * cosF c.azimuth
  let y := c.radius * sinF c.elevation
  let z := c.radius * cosF c.elevation * sinF c.azimuth
  let pos := Vec3.mk x y z + c.target
  { c with position := pos, viewMatrix := lookAt pos c.target c.up }

/-- camera.js setRadius: clamp the requested radius into
[minRadius, maxRadius] via Math.max/Math.min, then synchronously
recompute the view matrix. -/
def setRadius {M : Type} (cosF sinF : ℚ → ℚ)
    (lookAt : Vec3 → Vec3 → Vec3 → M) (c : CameraState M) (radius : ℚ) :
    CameraState M :=
  updateViewMatrix cosF sinF lookAt
    { c with radius := max c.minRadius (min c.maxRadius radius) }

/-! ### Per-frame uniform-binding trace (main.js PBRRenderer.render) -/

/-- One observable GPU-binding event of a frame: a global uniform bind,
a per-object uniform bind, or an indexed draw call. -/
inductive GLEvent where
  | bindGlobal (name : String)
  | bindObject (name : String) (obj : ℕ)
  | draw (obj : ℕ)
deriving DecidableEq, Repr

/-- Whether an event binds a global (camera / light / IBL) uniform. -/
def GLEvent.isGlobal : GLEvent → Bool
  | .bindGlobal _ => true
  | _ => false

/-- The light-array binds of PBRRenderer.render (lines 282-294): for
each light index, the eight per-light uniforms are bound when the slot
is present in the uniform cache (`hasLightSlot` models
hasUniform(u_lightTypes[i])). -/
def lightBindEvents (numLights : ℕ) (hasLightSlot : ℕ → Bool) : List GLEvent :=
  (List.range numLights).flatMap (fun i =>
    if hasLightSlot i then
      [.bindGlobal "u_lightTypes", .bindGlobal "u_lightPositions",
       .bindGlobal "u_lightDirections", .bindGlobal "u_lightColors",
       .bindGlobal "u_lightIntensities", .bindGlobal "u_lightRanges",
       .bindGlobal "u_lightInnerCones", .bindGlobal "u_lightOuterCones"]
    else [])

/-- The per-object part of PBRRenderer.render (lines 305-325): for each
scene object in order, bind its transform and material uniforms, then
issue its draw call. -/
def objectDrawEvents (numObjects : ℕ) : List GLEvent :=
  (List.range numObjects).flatMap (fun j =>
    [.bindObject "u_modelMatrix" j, .bindObject "u_normalMatrix" j,
     .bindObject "u_albedo" j, .bindObject "u_metallic" j,
     .bindObject "u_roughness" j, .bindObject "u_ao" j, .draw j])

/-- The full binding trace of one frame of PBRRenderer.render (lines
277-325): camera uniforms, light count and array, IBL settings, then
the per-object binds and draws. -/
def renderTrace (numLights : ℕ) (hasLightSlot : ℕ → Bool) (numObjects : ℕ) :
    List GLEvent :=
  [.bindGlobal "u_viewMatrix", .bindGlobal "u_projectionMatrix",
   .bindGlobal "u_cameraPosition", .bindGlobal "u_numLights"]
  ++ lightBindEvents numLights hasLightSlot
  ++ [.bindGlobal "u_useIBL", .bindGlobal "u_iblIntensity",
      .bindGlobal "u_ambientColor"]
  ++ objectDrawEvents numObjects

/-- A trace in which every global bind precedes every per-object event:
after the leading run of global binds, no global bind occurs again. -/
def globalsFirst : List GLEvent → Bool
  | [] => true
  | e :: rest => if e.isGlobal then globalsFirst rest else rest.all (fun v => !v.isGlobal)

/-- A concrete choice of the GLSL builtins returning the constant `c`,
used to evaluate the shader embedding at specific inputs. -/
def constPrims (c : ℚ) : GLSLPrims := ⟨fun _ => c, fun _ => c, fun _ => c, fun _ _ => c⟩

/-! ### Helper lemmas -/

theorem smulV_zero_left (v : Vec3) : smulV 0 v = v3 0 := by
  ext <;> simp

theorem directDiffuse_metallic_one (F albedo : Vec3) :
    directDiffuse F 1 albedo = v3 0 := by
  ext <;> simp [directDiffuse]

theorem Store.read_write_self (s : Store) (addr i : ℕ) (q : ℚ)
    (haddr : addr < s.arrays.length) (hi : i < (s.arrays.getD addr []).length) :
    (s.write addr i q).read addr i = q := by
  simp only [Store.read, Store.write]
  have h1 : (s.arrays.set addr ((s.arrays.getD addr []).set i q)).getD addr []
      = (s.arrays.getD addr []).set i q := by
    rw [List.getD_eq_getElem?_getD, List.getElem?_set_eq_of_lt _ haddr]
    rfl
  rw [h1, List.getD_eq_getElem?_getD, List.getElem?_set_eq_of_lt _ hi]
  rfl

/-! ### Claims -/

/-- Claim C9: the radiance returned by calculateLightContribution for a
Directional light (type 0) is independent of the light's intensity
argument: two evaluations differing only in the intensity produce
identical output, since the directional branch keeps attenuation = 1 and
never applies the intensity. -/
theorem C9_directional_ignores_intensity (P : GLSLPrims)
    (lightPos lightDir lightColor : Vec3)
    (intensity1 intensity2 lightRange innerCone outerCone : ℚ)
    (worldPos N V albedo : Vec3) (metallic roughness : ℚ) (F0 : Vec3) :
    calculateLightContribution P 0 lightPos lightDir lightColor intensity1
      lightRange innerCone outerCone worldPos N V albedo metallic roughness F0 =
    calculateLightContribution P 0 lightPos lightDir lightColor intensity2
      lightRange innerCone outerCone worldPos N V albedo metallic roughness F0 := by
  simp [calculateLightContribution]

/-- Claim C4: with metallic = 1 the diffuse term of the direct-lighting
BRDF is exactly the zero vector (kD = (1 - F) * (1 - metallic) = 0), so
the per-light radiance is independent of the albedo parameter, and the
diffuse part of the enabled-IBL ambient term is likewise exactly zero:
only the specular contribution prefilteredColor * F (scaled by ao and
the IBL intensity) remains. -/
theorem C4_metallic_one_kills_diffuse (P : GLSLPrims) (lightType : ℤ)
    (lightPos lightDir lightColor : Vec3)
    (lightIntensity lightRange innerCone outerCone : ℚ)
    (worldPos N V albedo1 albedo2 : Vec3) (roughness : ℚ)
    (F F0 R : Vec3) (ao iblIntensity : ℚ) :
    directDiffuse F 1 albedo1 = v3 0 ∧
    calculateLightContribution P lightType lightPos lightDir lightColor
      lightIntensity lightRange innerCone outerCone worldPos N V albedo1 1
      roughness F0 =
    calculateLightContribution P lightType lightPos lightDir lightColor
      lightIntensity lightRange innerCone outerCone worldPos N V albedo2 1
      roughness F0 ∧
    iblAmbient P true N V R F0 roughness 1 albedo1 ao iblIntensity lightColor =
      smulV (ao * iblIntensity)
        (sampleRadiance P R roughness *
          fresnelSchlickRoughness P (max (dotV N V) 0) F0 roughness) := by
  refine ⟨directDiffuse_metallic_one F albedo1, ?_, ?_⟩
  · simp only [calculateLightContribution, directDiffuse_metallic_one]
  · ext <;> simp [iblAmbient]

/-- Claim C1: the roughness stored by the SceneObject constructor is
strictly positive (a zero or absent record value is floored to the 0.5
default), and with any such roughness the GGX distribution denominator
PI * (NdotH^2 * (a^2 - 1) + 1)^2 and the Schlick-GGX geometry
denominator NdotV * (1 - k) + k are nonzero for all attainable
NdotH in [0, 1] and NdotV >= 0 — in particular the division in
DistributionGGX is guarded even for a record roughness of 0 at
NdotH = 1. -/
theorem C1_roughness_floored_denominators_nonzero (rRec : Option ℚ)
    (NdotH NdotV : ℚ)
    (hrec : ∀ q, rRec = some q → 0 ≤ q ∧ q ≤ 1)
    (hH0 : 0 ≤ NdotH) (hH1 : NdotH ≤ 1) (hV : 0 ≤ NdotV) :
    0 < jsNumOr rRec 0.5 ∧
    ggxDenom ((jsNumOr rRec 0.5 * jsNumOr rRec 0.5) *
      (jsNumOr rRec 0.5 * jsNumOr rRec 0.5)) (NdotH * NdotH) ≠ 0 ∧
    schlickDenom NdotV
      ((jsNumOr rRec 0.5 + 1) * (jsNumOr rRec 0.5 + 1) / 8) ≠ 0 := by
  have hrho : 0 < jsNumOr rRec 0.5 ∧ jsNumOr rRec 0.5 ≤ 1 := by
    cases rRec with
    | none => norm_num [jsNumOr]
    | some q =>
      rcases hrec q rfl with ⟨hq0, hq1⟩
      by_cases hq : q = 0 <;> simp [jsNumOr, hq]
      · norm_num
      · exact ⟨lt_of_le_of_ne hq0 (Ne.symm hq), hq1⟩
  set rho := jsNumOr rRec 0.5 with hrhodef
  obtain ⟨hr0, hr1⟩ := hrho
  refine ⟨hr0, ?_, ?_⟩
  · have ha2 : 0 < rho * rho * (rho * rho) := by positivity
    have hrr : rho * rho ≤ 1 := by nlinarith
    have ha2le : rho * rho * (rho * rho) ≤ 1 := by nlinarith
    have hd : 0 < NdotH * NdotH * (rho * rho * (rho * rho) - 1) + 1 := by
      nlinarith [sq_nonneg NdotH, sq_nonneg (1 - NdotH)]
    have hpi : (0 : ℚ) < shaderPI := by norm_num [shaderPI]
    have : 0 < ggxDenom (rho * rho * (rho * rho)) (NdotH * NdotH) := by
      simp only [ggxDenom]
      positivity
    exact ne_of_gt this
  · have hk0 : 0 < (rho + 1) * (rho + 1) / 8 := by positivity
    have hk1 : (rho + 1) * (rho + 1) / 8 ≤ 1 / 2 := by nlinarith
    have : 0 < schlickDenom NdotV ((rho + 1) * (rho + 1) / 8) := by
      simp only [schlickDenom]
      nlinarith
    exact ne_of_gt this

/-- Witness for C1 at the claim's own corner case: a material record
with roughness = 0 is floored to 0.5 and the denominators at NdotH = 1,
NdotV = 0 are nonzero. -/
theorem C1_witness :
    0 < jsNumOr (some 0) 0.5 ∧
    ggxDenom ((jsNumOr (some 0) 0.5 * jsNumOr (some 0) 0.5) *
      (jsNumOr (some 0) 0.5 * jsNumOr (some 0) 0.5)) (1 * 1) ≠ 0 ∧
    schlickDenom 0
      ((jsNumOr (some 0) 0.5 + 1) * (jsNumOr (some 0) 0.5 + 1) / 8) ≠ 0 :=
  C1_roughness_floored_denominators_nonzero (some 0) 1 0
    (by intro q hq; simp at hq; subst hq; norm_num)
    (by norm_num) (by norm_num) (by norm_num)

/-- Claim C10: the SceneObject constructor's falsy-or defaulting maps a
record roughness of 0 to the 0.5 default and a record ao of 0 to the 1.0
default, preserves metallic = 0 (whose default is also 0), preserves any
nonzero roughness and ao, and therefore can never store roughness = 0 or
ao = 0. -/
theorem C10_falsy_or_defaults (s : Store) (m : MaterialRecord) :
    (sceneObjectMaterial s m).2.roughness ≠ 0 ∧
    (sceneObjectMaterial s m).2.ao ≠ 0 ∧
    (m.roughness = some 0 → (sceneObjectMaterial s m).2.roughness = 0.5) ∧
    (m.ao = some 0 → (sceneObjectMaterial s m).2.ao = 1) ∧
    (m.metallic = some 0 → (sceneObjectMaterial s m).2.metallic = 0) ∧
    (∀ q, q ≠ 0 → m.roughness = some q → (sceneObjectMaterial s m).2.roughness = q) ∧
    (∀ q, q ≠ 0 → m.ao = some q → (sceneObjectMaterial s m).2.ao = q) := by
  have hsc : (sceneObjectMaterial s m).2.metallic = jsNumOr m.metallic 0 ∧
      (sceneObjectMaterial s m).2.roughness = jsNumOr m.roughness 0.5 ∧
      (sceneObjectMaterial s m).2.ao = jsNumOr m.ao 1 := by
    rcases m with ⟨alb, mm, mr, mao⟩
    cases alb <;> simp [sceneObjectMaterial]
  obtain ⟨hm, hr, hao⟩ := hsc
  rw [hm, hr, hao]
  have hne : ∀ (v : Option ℚ) (d : ℚ), d ≠ 0 → jsNumOr v d ≠ 0 := by
    intro v d hd
    cases v with
    | none => simpa [jsNumOr] using hd
    | some q =>
      by_cases hq : q = 0 <;> simp [jsNumOr, hq, hd]
  refine ⟨hne _ _ (by norm_num), hne _ _ (by norm_num), ?_, ?_, ?_, ?_, ?_⟩
  · intro h; simp [h, jsNumOr]
  · intro h; simp [h, jsNumOr]
  · intro h; simp [h, jsNumOr]
  · intro q hq h; simp [h, jsNumOr, hq]
  · intro q hq h; simp [h, jsNumOr, hq]

/-- Counterexample for C2: two SceneObjects constructed from the same
material record share the record's albedo array by reference, so writing
component 0 of the first object's albedo (value 0.25) becomes visible
through the second object's albedo and through the source record's
array, refuting independence of the copies. -/
theorem C2_counterexample :
    ((sceneObjectMaterial
        (sceneObjectMaterial ⟨[[1, 0.8, 0.1]]⟩ ⟨some 0, some 1, some 0.1, some 1⟩).1
        ⟨some 0, some 1, some 0.1, some 1⟩).1.read
      (sceneObjectMaterial
        (sceneObjectMaterial ⟨[[1, 0.8, 0.1]]⟩ ⟨some 0, some 1, some 0.1, some 1⟩).1
        ⟨some 0, some 1, some 0.1, some 1⟩).2.albedo 0 = 1) ∧
    (((sceneObjectMaterial
        (sceneObjectMaterial ⟨[[1, 0.8, 0.1]]⟩ ⟨some 0, some 1, some 0.1, some 1⟩).1
        ⟨some 0, some 1, some 0.1, some 1⟩).1.write
      (sceneObjectMaterial ⟨[[1, 0.8, 0.1]]⟩ ⟨some 0, some 1, some 0.1, some 1⟩).2.albedo
        0 0.25).read
      (sceneObjectMaterial
        (sceneObjectMaterial ⟨[[1, 0.8, 0.1]]⟩ ⟨some 0, some 1, some 0.1, some 1⟩).1
        ⟨some 0, some 1, some 0.1, some 1⟩).2.albedo 0 = 0.25) ∧
    (((sceneObjectMaterial
        (sceneObjectMaterial ⟨[[1, 0.8, 0.1]]⟩ ⟨some 0, some 1, some 0.1, some 1⟩).1
        ⟨some 0, some 1, some 0.1, some 1⟩).1.write
      (sceneObjectMaterial ⟨[[1, 0.8, 0.1]]⟩ ⟨some 0, some 1, some 0.1, some 1⟩).2.albedo
        0 0.25).read 0 0 = 0.25) := by
  refine ⟨?_, ?_, ?_⟩ <;>
    simp [sceneObjectMaterial, Store.read, Store.write, jsNumOr]

/-- Claim C2 (amended): the scalar material fields (metallic, roughness,
ao) of SceneObjects constructed from the same record are independent
by-value copies, but a record-supplied albedo array is stored by
reference: both objects hold the record's array address, construction
allocates nothing, and a component write through one object's albedo is
read back through the other object's albedo. -/
theorem C2_amended_albedo_shared (s : Store) (m : MaterialRecord) (a : ℕ)
    (ha : m.albedo = some a) (haddr : a < s.arrays.length) :
    (sceneObjectMaterial s m).2.albedo = a ∧
    (sceneObjectMaterial (sceneObjectMaterial s m).1 m).2.albedo = a ∧
    (sceneObjectMaterial s m).1 = s ∧
    (sceneObjectMaterial s m).2.metallic
      = (sceneObjectMaterial (sceneObjectMaterial s m).1 m).2.metallic ∧
    (sceneObjectMaterial s m).2.roughness
      = (sceneObjectMaterial (sceneObjectMaterial s m).1 m).2.roughness ∧
    (sceneObjectMaterial s m).2.ao
      = (sceneObjectMaterial (sceneObjectMaterial s m).1 m).2.ao ∧
    (∀ i q, i < (s.arrays.getD a []).length →
      (s.write (sceneObjectMaterial s m).2.albedo i q).read
        (sceneObjectMaterial (sceneObjectMaterial s m).1 m).2.albedo i = q) := by
  rcases m with ⟨alb, mm, mr, mao⟩
  simp only at ha
  subst ha
  refine ⟨by simp [sceneObjectMaterial], by simp [sceneObjectMaterial],
    by simp [sceneObjectMaterial], by simp [sceneObjectMaterial],
    by simp [sceneObjectMaterial], by simp [sceneObjectMaterial], ?_⟩
  intro i q hi
  have h2 : (sceneObjectMaterial s ⟨some a, mm, mr, mao⟩).2.albedo = a := by
    simp [sceneObjectMaterial]
  have h3 : (sceneObjectMaterial (sceneObjectMaterial s ⟨some a, mm, mr, mao⟩).1
      ⟨some a, mm, mr, mao⟩).2.albedo = a := by
    simp [sceneObjectMaterial]
  rw [h2, h3]
  exact Store.read_write_self s a i q haddr hi

/-- Witness for C2 (amended) at a concrete heap and record. -/
theorem C2_amended_witness :
    (sceneObjectMaterial ⟨[[1, 1, 1]]⟩ ⟨some 0, none, none, none⟩).2.albedo = 0 ∧
    ((⟨[[1, 1, 1]]⟩ : Store).write
        (sceneObjectMaterial ⟨[[1, 1, 1]]⟩ ⟨some 0, none, none, none⟩).2.albedo 2 5).read
      (sceneObjectMaterial
        (sceneObjectMaterial ⟨[[1, 1, 1]]⟩ ⟨some 0, none, none, none⟩).1
        ⟨some 0, none, none, none⟩).2.albedo 2 = 5 := by
  have h := C2_amended_albedo_shared ⟨[[1, 1, 1]]⟩ ⟨some 0, none, none, none⟩ 0
    rfl (by norm_num)
  exact ⟨h.1, h.2.2.2.2.2.2 2 5 (by norm_num)⟩

/-- Claim C7: setUniform with a name absent from the uniform cache is a
total no-op apart from the warning: it returns the GPU uniform store
unchanged (so every previously bound uniform keeps its value) together
with the warning flag. -/
theorem C7_unknown_uniform_noop (um : List (String × UniformEntry))
    (store : ℕ → List ℚ) (name : String) (values : List ℚ)
    (h : lookupUniform um name = none) :
    (setUniform um store name values).1 = store ∧
    (setUniform um store name values).2 = true := by
  simp [setUniform, h]

/-- Witness for C7: a one-entry cache and an unknown name. -/
theorem C7_witness :
    lookupUniform [("u_albedo", ⟨0, GLType.vec3⟩)] "u_missing" = none ∧
    (setUniform [("u_albedo", ⟨0, GLType.vec3⟩)] (fun _ => ([] : List ℚ))
      "u_missing" [1, 2, 3]).1 = (fun _ => ([] : List ℚ)) ∧
    (setUniform [("u_albedo", ⟨0, GLType.vec3⟩)] (fun _ => ([] : List ℚ))
      "u_missing" [1, 2, 3]).2 = true := by
  have hn : lookupUniform [("u_albedo", ⟨0, GLType.vec3⟩)] "u_missing" = none := by
    simp [lookupUniform]
  have h := C7_unknown_uniform_noop [("u_albedo", ⟨0, GLType.vec3⟩)]
    (fun _ => ([] : List ℚ)) "u_missing" [1, 2, 3] hn
  exact ⟨hn, h.1, h.2⟩

/-- Claim C8: Camera.setRadius stores the requested radius clamped into
[minRadius, maxRadius] (a request below minRadius stores minRadius) and
synchronously recomputes the view matrix, which is exactly the lookAt
function applied to the position derived from the clamped radius — never
the requested value and never stale. -/
theorem C8_setRadius_clamps_and_recomputes {M : Type} (cosF sinF : ℚ → ℚ)
    (lookAt : Vec3 → Vec3 → Vec3 → M) (c : CameraState M) (radius : ℚ)
    (h : c.minRadius ≤ c.maxRadius) :
    (setRadius cosF sinF lookAt c radius).radius
      = max c.minRadius (min c.maxRadius radius) ∧
    (radius < c.minRadius →
      (setRadius cosF sinF lookAt c radius).radius = c.minRadius) ∧
    (setRadius cosF sinF lookAt c radius).position
      = Vec3.mk
          (max c.minRadius (min c.maxRadius radius) * cosF c.elevation * cosF c.azimuth)
          (max c.minRadius (min c.maxRadius radius) * sinF c.elevation)
          (max c.minRadius (min c.maxRadius radius) * cosF c.elevation * sinF c.azimuth)
        + c.target ∧
    (setRadius cosF sinF lookAt c radius).viewMatrix
      = lookAt (setRadius cosF sinF lookAt c radius).position c.target c.up := by
  refine ⟨rfl, ?_, rfl, rfl⟩
  intro hlt
  simp only [setRadius, updateViewMatrix]
  rw [min_eq_right (le_of_lt (lt_of_lt_of_le hlt h)), max_eq_left (le_of_lt hlt)]

/-- Witness for C8: a camera with minRadius = 1, maxRadius = 20 and a
request of 1/2 stores radius 1. -/
theorem C8_witness :
    (setRadius (fun _ => 1) (fun _ => 0) (fun _ _ _ => (0 : ℚ))
      ⟨5, 0, 0, v3 0, v3 0, v3 0, 1, 20, 0⟩ (1 / 2)).radius = 1 := by
  have h := C8_setRadius_clamps_and_recomputes (fun _ => 1) (fun _ => 0)
    (fun _ _ _ => (0 : ℚ)) ⟨5, 0, 0, v3 0, v3 0, v3 0, 1, 20, 0⟩ (1 / 2)
    (by norm_num)
  exact h.2.1 (by norm_num)

/-- Counterexample for C5: for a light with range 2 and intensity 0 at
distance 3/2 (inside the smoothstep regime, range/2 < d < range), the
combined attenuation is 0 and the inverse-square value is also 0, so the
attenuation is not strictly below the inverse-square value as claimed
for every light with positive range. -/
theorem C5_counterexample :
    ¬ (pointAttenuation 0 2 (3 / 2) < 0 / ((3 / 2 : ℚ) * (3 / 2))) := by
  norm_num [pointAttenuation, smoothstepQ, clampQ]

/-- Claim C5 (amended): for a Point or Spot light with range r > 0, the
combined distance attenuation intensity / d^2 * smoothstep(r, r/2, d) is
exactly 0 at d = r (and calculateLightContribution then returns zero
radiance for both light types), equals the pure inverse-square value at
d = r/2, and for r/2 < d < r is strictly below the inverse-square value
whenever intensity > 0 (for intensity = 0 both values are 0). -/
theorem C5_attenuation_amended (lightIntensity lightRange d : ℚ)
    (hr : 0 < lightRange) (h1 : lightRange * 0.5 < d) (h2 : d < lightRange)
    (hI : 0 < lightIntensity) :
    pointAttenuation lightIntensity lightRange lightRange = 0 ∧
    pointAttenuation lightIntensity lightRange (lightRange * 0.5)
      = lightIntensity / ((lightRange * 0.5) * (lightRange * 0.5)) ∧
    pointAttenuation lightIntensity lightRange d < lightIntensity / (d * d) ∧
    (∀ (P : GLSLPrims) (lightPos lightDir lightColor : Vec3)
        (innerCone outerCone : ℚ) (worldPos N V albedo : Vec3)
        (metallic roughness : ℚ) (F0 : Vec3),
      lengthV P (lightPos - worldPos) = lightRange →
      calculateLightContribution P 1 lightPos lightDir lightColor
        lightIntensity lightRange innerCone outerCone worldPos N V albedo
        metallic roughness F0 = v3 0) ∧
    (∀ (P : GLSLPrims) (lightPos lightDir lightColor : Vec3)
        (innerCone outerCone : ℚ) (worldPos N V albedo : Vec3)
        (metallic roughness : ℚ) (F0 : Vec3),
      lengthV P (lightPos - worldPos) = lightRange →
      calculateLightContribution P 2 lightPos lightDir lightColor
        lightIntensity lightRange innerCone outerCone worldPos N V albedo
        metallic roughness F0 = v3 0) := by
  have hzero : pointAttenuation lightIntensity lightRange lightRange = 0 := by
    simp [pointAttenuation, smoothstepQ, clampQ]
  have hhalf : pointAttenuation lightIntensity lightRange (lightRange * 0.5)
      = lightIntensity / ((lightRange * 0.5) * (lightRange * 0.5)) := by
    have hne : lightRange * 0.5 - lightRange ≠ 0 := by
      intro hc
      apply absurd hr
      nlinarith
    simp only [pointAttenuation, smoothstepQ, clampQ, div_self hne]
    norm_num
  have hstrict : pointAttenuation lightIntensity lightRange d
      < lightIntensity / (d * d) := by
    have hd0 : 0 < d := by nlinarith
    set u := (d - lightRange) / (lightRange * 0.5 - lightRange) with hu
    have hden : lightRange * 0.5 - lightRange = -(0.5 * lightRange) := by ring
    have hu' : u = (lightRange - d) / (0.5 * lightRange) := by
      rw [hu, hden, div_neg, ← neg_div, neg_sub]
    have hu0 : 0 < u := by
      rw [hu']
      apply div_pos (by linarith) (by linarith)
    have hu1 : u < 1 := by
      rw [hu']
      rw [div_lt_one (by linarith)]
      linarith
    have hclamp : clampQ u 0 1 = u := by
      simp only [clampQ]
      rw [max_eq_left hu0.le, min_eq_left hu1.le]
    have hs1 : u * u * (3 - 2 * u) < 1 := by
      nlinarith [mul_pos (mul_pos (sub_pos.2 hu1) (sub_pos.2 hu1))
        (by linarith : (0 : ℚ) < 1 + 2 * u)]
    have hq : 0 < lightIntensity / (d * d) :=
      div_pos hI (by positivity)
    calc pointAttenuation lightIntensity lightRange d
        = lightIntensity / (d * d) * (u * u * (3 - 2 * u)) := by
          simp only [pointAttenuation, smoothstepQ, hclamp]
      _ < lightIntensity / (d * d) * 1 := by
          exact mul_lt_mul_of_pos_left hs1 hq
      _ = lightIntensity / (d * d) := mul_one _
  refine ⟨hzero, hhalf, hstrict, ?_, ?_⟩
  · intro P lightPos lightDir lightColor innerCone outerCone worldPos N V
      albedo metallic roughness F0 hL
    simp only [calculateLightContribution, hL, hzero]
    norm_num
  · intro P lightPos lightDir lightColor innerCone outerCone worldPos N V
      albedo metallic roughness F0 hL
    simp only [calculateLightContribution, hL, hzero]
    norm_num

/-- Witness for C5 (amended) at intensity 1, range 2, distance 3/2,
including zero radiance at distance = range for point and spot lights
under a concrete sqrt implementation. -/
theorem C5_witness :
    pointAttenuation 1 2 2 = 0 ∧
    pointAttenuation 1 2 (2 * 0.5) = 1 / ((2 * 0.5) * (2 * 0.5)) ∧
    pointAttenuation 1 2 (3 / 2) < 1 / ((3 / 2 : ℚ) * (3 / 2)) ∧
    calculateLightContribution (constPrims 2) 1 (v3 0) (v3 0) (v3 0) 1 2 0 0
      (v3 0) (v3 0) (v3 0) (v3 0) 0 0 (v3 0) = v3 0 ∧
    calculateLightContribution (constPrims 2) 2 (v3 0) (v3 0) (v3 0) 1 2 0 0
      (v3 0) (v3 0) (v3 0) (v3 0) 0 0 (v3 0) = v3 0 := by
  have h := C5_attenuation_amended 1 2 (3 / 2) (by norm_num) (by norm_num)
    (by norm_num) (by norm_num)
  refine ⟨h.1, h.2.1, h.2.2.1, ?_, ?_⟩
  · exact h.2.2.2.1 (constPrims 2) (v3 0) (v3 0) (v3 0) 0 0 (v3 0) (v3 0)
      (v3 0) (v3 0) 0 0 (v3 0) rfl
  · exact h.2.2.2.2 (constPrims 2) (v3 0) (v3 0) (v3 0) 0 0 (v3 0) (v3 0)
      (v3 0) (v3 0) 0 0 (v3 0) rfl

theorem lightLoop_eq_sum (numLights : ℤ) (c : ℕ → Vec3) :
    ∀ (fuel i : ℕ) (acc : Vec3), 8 - i ≤ fuel →
    lightLoop numLights c i acc
      = acc + ((List.range' i (min numLights.toNat 8 - i)).map c).sum := by
  intro fuel
  induction fuel with
  | zero =>
    intro i acc h
    rw [lightLoop]
    have hc : ¬ ((i : ℤ) < numLights ∧ i < 8) := by
      rintro ⟨-, h8⟩
      omega
    rw [if_neg hc]
    have hz : min numLights.toNat 8 - i = 0 := by omega
    simp [hz]
  | succ fuel ih =>
    intro i acc h
    rw [lightLoop]
    by_cases hc : (i : ℤ) < numLights ∧ i < 8
    · rw [if_pos hc]
      rw [ih (i + 1) (acc + c i) (by omega)]
      obtain ⟨hn, h8⟩ := hc
      have hlt : i < min numLights.toNat 8 := by omega
      have hspan : min numLights.toNat 8 - i
          = (min numLights.toNat 8 - (i + 1)) + 1 := by omega
      rw [hspan, List.range'_succ, List.map_cons, List.sum_cons, add_assoc]
    · rw [if_neg hc]
      have hz : min numLights.toNat 8 - i = 0 := by
        rcases Decidable.not_and_iff_or_not.mp hc with hn | h8
        · omega
        · omega
      simp [hz]

/-- Claim C3: the shading core's light loop accumulates exactly the
contributions of the lights with index 0 <= i < min(u_numLights, 8): a
count beyond MAX_LIGHTS = 8 is clamped to 8, and the values of the
per-light contributions at index 8 or above never affect the result. -/
theorem C3_light_loop_clamped (numLights : ℤ) (contrib contrib2 : ℕ → Vec3) :
    lightLoop numLights contrib 0 (v3 0)
      = ((List.range (min numLights.toNat 8)).map contrib).sum ∧
    (8 ≤ numLights →
      lightLoop numLights contrib 0 (v3 0) = lightLoop 8 contrib 0 (v3 0)) ∧
    ((∀ i, i < 8 → contrib i = contrib2 i) →
      lightLoop numLights contrib 0 (v3 0)
        = lightLoop numLights contrib2 0 (v3 0)) := by
  have hmain : ∀ (c : ℕ → Vec3) (n : ℤ), lightLoop n c 0 (v3 0)
      = ((List.range (min n.toNat 8)).map c).sum := by
    intro c n
    rw [lightLoop_eq_sum n c 8 0 (v3 0) (by omega)]
    have h0 : v3 0 = (0 : Vec3) := rfl
    rw [h0, zero_add, Nat.sub_zero, List.range_eq_range']
  refine ⟨hmain contrib numLights, ?_, ?_⟩
  · intro h8
    rw [hmain contrib numLights, hmain contrib 8]
    have : min numLights.toNat 8 = 8 := by omega
    rw [this]
    rfl
  · intro hagree
    rw [hmain contrib numLights, hmain contrib2 numLights]
    have : ∀ i ∈ List.range (min numLights.toNat 8), contrib i = contrib2 i := by
      intro i hi
      rw [List.mem_range] at hi
      exact hagree i (by omega)
    rw [List.map_congr_left this]

/-- Witness for C3: with 10 requested lights only the first 8 are
accumulated, and altering the contributions from index 8 on changes
nothing. -/
theorem C3_witness :
    lightLoop 10 (fun _ => v3 1) 0 (v3 0) = lightLoop 8 (fun _ => v3 1) 0 (v3 0) ∧
    lightLoop 10 (fun _ => v3 1) 0 (v3 0)
      = lightLoop 10 (fun i => if i < 8 then v3 1 else v3 5) 0 (v3 0) := by
  have h := C3_light_loop_clamped 10 (fun _ => v3 1)
    (fun i => if i < 8 then v3 1 else v3 5)
  exact ⟨h.2.1 (by norm_num), h.2.2 (by intro i hi; simp [hi])⟩

theorem globalsFirst_append_of_global (xs ys : List GLEvent)
    (hxs : ∀ e ∈ xs, e.isGlobal = true) :
    globalsFirst (xs ++ ys) = globalsFirst ys := by
  induction xs with
  | nil => rfl
  | cons e rest ih =>
    have he := hxs e (by simp)
    rw [List.cons_append]
    rw [globalsFirst, if_pos he]
    exact ih (fun v hv => hxs v (by simp [hv]))

theorem globalsFirst_of_nonglobal (xs : List GLEvent)
    (hxs : ∀ e ∈ xs, e.isGlobal = false) :
    globalsFirst xs = true := by
  cases xs with
  | nil => rfl
  | cons e rest =>
    rw [globalsFirst, if_neg (by simp [hxs e (by simp)])]
    rw [List.all_eq_true]
    intro v hv
    simp [hxs v (by simp [hv])]

theorem lightBindEvents_global (numLights : ℕ) (hasLightSlot : ℕ → Bool) :
    ∀ e ∈ lightBindEvents numLights hasLightSlot, e.isGlobal = true := by
  intro e he
  rw [lightBindEvents, List.mem_flatMap] at he
  obtain ⟨i, -, hmem⟩ := he
  by_cases hb : hasLightSlot i <;> simp [hb] at hmem
  rcases hmem with rfl | rfl | rfl | rfl | rfl | rfl | rfl | rfl <;> rfl

theorem objectDrawEvents_nonglobal (numObjects : ℕ) :
    ∀ e ∈ objectDrawEvents numObjects, e.isGlobal = false := by
  intro e he
  rw [objectDrawEvents, List.mem_flatMap] at he
  obtain ⟨j, -, hmem⟩ := he
  simp at hmem
  rcases hmem with rfl | rfl | rfl | rfl | rfl | rfl | rfl <;> rfl

/-- Claim C6: in every frame trace produced by PBRRenderer.render, all
global uniform binds (view and projection matrices, camera position,
light count and light arrays, IBL settings) precede every per-object
uniform bind and every draw call, and no global uniform is rebound once
the per-object section starts; each always-bound global uniform does
occur in the trace, as does the draw of every scene object. -/
theorem C6_globals_before_objects (numLights : ℕ) (hasLightSlot : ℕ → Bool)
    (numObjects : ℕ) :
    globalsFirst (renderTrace numLights hasLightSlot numObjects) = true ∧
    GLEvent.bindGlobal "u_viewMatrix"
      ∈ renderTrace numLights hasLightSlot numObjects ∧
    GLEvent.bindGlobal "u_projectionMatrix"
      ∈ renderTrace numLights hasLightSlot numObjects ∧
    GLEvent.bindGlobal "u_cameraPosition"
      ∈ renderTrace numLights hasLightSlot numObjects ∧
    GLEvent.bindGlobal "u_numLights"
      ∈ renderTrace numLights hasLightSlot numObjects ∧
    GLEvent.bindGlobal "u_useIBL"
      ∈ renderTrace numLights hasLightSlot numObjects ∧
    GLEvent.bindGlobal "u_iblIntensity"
      ∈ renderTrace numLights hasLightSlot numObjects ∧
    GLEvent.bindGlobal "u_ambientColor"
      ∈ renderTrace numLights hasLightSlot numObjects ∧
    (∀ j, j < numObjects →
      GLEvent.draw j ∈ renderTrace numLights hasLightSlot numObjects) := by
  have hfix4 : ∀ e ∈ ([GLEvent.bindGlobal "u_viewMatrix",
      GLEvent.bindGlobal "u_projectionMatrix",
      GLEvent.bindGlobal "u_cameraPosition",
      GLEvent.bindGlobal "u_numLights"] : List GLEvent), e.isGlobal = true := by
    intro e he
    simp at he
    rcases he with rfl | rfl | rfl | rfl <;> rfl
  have hibl : ∀ e ∈ ([GLEvent.bindGlobal "u_useIBL",
      GLEvent.bindGlobal "u_iblIntensity",
      GLEvent.bindGlobal "u_ambientColor"] : List GLEvent), e.isGlobal = true := by
    intro e he
    simp at he
    rcases he with rfl | rfl | rfl <;> rfl
  have hglob : ∀ e ∈ (([GLEvent.bindGlobal "u_viewMatrix",
      GLEvent.bindGlobal "u_projectionMatrix",
      GLEvent.bindGlobal "u_cameraPosition",
      GLEvent.bindGlobal "u_numLights"]
      ++ lightBindEvents numLights hasLightSlot)
      ++ [GLEvent.bindGlobal "u_useIBL", GLEvent.bindGlobal "u_iblIntensity",
          GLEvent.bindGlobal "u_ambientColor"] : List GLEvent),
      e.isGlobal = true := by
    intro e he
    simp only [List.mem_append] at he
    rcases he with (h | h) | h
    · exact hfix4 e h
    · exact lightBindEvents_global numLights hasLightSlot e h
    · exact hibl e h
  refine ⟨?_, ?_, ?_, ?_, ?_, ?_, ?_, ?_, ?_⟩
  · rw [renderTrace]
    rw [globalsFirst_append_of_global _ _ hglob]
    exact globalsFirst_of_nonglobal _ (objectDrawEvents_nonglobal _)
  · simp [renderTrace]
  · simp [renderTrace]
  · simp [renderTrace]
  · simp [renderTrace]
  · simp [renderTrace]
  · simp [renderTrace]
  · simp [renderTrace]
  · intro j hj
    rw [renderTrace]
    simp only [List.mem_append]
    refine Or.inr ?_
    rw [objectDrawEvents, List.mem_flatMap]
    exact ⟨j, by simpa using hj, by simp⟩

/-- Witness for C6 at a concrete frame: two lights, three objects; the
draw of object 1 appears in the trace. -/
theorem C6_witness :
    globalsFirst (renderTrace 2 (fun _ => true) 3) = true ∧
    GLEvent.draw 1 ∈ renderTrace 2 (fun _ => true) 3 := by
  have h := C6_globals_before_objects 2 (fun _ => true) 3
  exact ⟨h.1, h.2.2.2.2.2.2.2.2 1 (by norm_num)⟩

/-- Witness for C10: a record with roughness = 0, ao = 0, metallic = 0
stores roughness 0.5, ao 1 and metallic 0. -/
theorem C10_witness :
    (sceneObjectMaterial ⟨[]⟩ ⟨none, some 0, some 0, some 0⟩).2.roughness = 0.5 ∧
    (sceneObjectMaterial ⟨[]⟩ ⟨none, some 0, some 0, some 0⟩).2.ao = 1 ∧
    (sceneObjectMaterial ⟨[]⟩ ⟨none, some 0, some 0, some 0⟩).2.metallic = 0 := by
  have h := C10_falsy_or_defaults ⟨[]⟩ ⟨none, some 0, some 0, some 0⟩
  exact ⟨h.2.2.1 rfl, h.2.2.2.1 rfl, h.2.2.2.2.1 rfl⟩

end PBR
